import Mathlib

/-
Verification development for the resume field-extraction pipeline in
src/fixed_enhanced_resume_parser.py (class EnhancedResumeParser).

The Python code is shallowly embedded below.  Pure string/regex logic is
translated into executable Lean functions over String / List Char; Python
floats are modelled as exact rationals; Python exceptions are modelled with
Except; callable stages that the code obtains from external collaborators
(the regex engine applied to the two section-finding patterns, the spaCy
entity recogniser, the PyPDF2 / python-docx readers, and the file system)
appear as explicit function parameters, so the theorems below quantify over
every behaviour those collaborators can exhibit.
-/

/-- Characters treated as whitespace by Python str.strip / str.split
(the ASCII fragment of the Python whitespace set). -/
def pyIsSpace (c : Char) : Bool :=
  c = ' ' || c = '\t' || c = '\n' || c = '\r' || c = '\x0b' || c = '\x0c'

/-- Embedding of Python str.strip(): drop leading and trailing whitespace. -/
def pyStrip (s : String) : String :=
  String.mk (((s.data.dropWhile pyIsSpace).reverse.dropWhile pyIsSpace).reverse)

/-- Splitting of a character list at every character satisfying p, keeping
empty pieces (Python str.split with an explicit separator, and re.split on
a single-character class); the first argument accumulates the current
piece in reverse. -/
def splitChars (p : Char → Bool) : List Char → List Char → List String
  | [], cur => [String.mk cur.reverse]
  | c :: r, cur =>
    if p c then String.mk cur.reverse :: splitChars p r []
    else splitChars p r (c :: cur)

/-- Split of a string at every character satisfying p, keeping empty
pieces. -/
def pySplitOn (p : Char → Bool) (s : String) : List String :=
  splitChars p s.data []

/-- Embedding of Python str.split() with no argument: split on whitespace
runs and drop empty pieces. -/
def pySplit (s : String) : List String :=
  (pySplitOn pyIsSpace s).filter (fun p => p ≠ "")

/-- Head-character test (Python str.startswith on a single character). -/
def strStartsWithChar (s : String) (c : Char) : Bool :=
  s.data.head? = some c

/-- Embedding of Python str.lower() (ASCII fragment, applied code point by
code point). -/
def pyLower (s : String) : String :=
  String.mk (s.data.map Char.toLower)

/-- Word characters of the Python regex \w (ASCII fragment): letters,
digits and underscore.  Used for the \b word-boundary assertions. -/
def isWordChar (c : Char) : Bool :=
  c.isAlphanum || c = '_'

/-- Rightmost index of a character in a list, minus one if absent
(embedding of Python str.rfind on a single character). -/
def rfindIdxAux (c : Char) : List Char → Int → Int → Int
  | [], _, best => best
  | x :: r, i, best => rfindIdxAux c r (i + 1) (if x = c then i else best)

/-- Rightmost index of a character, or -1 (Python str.rfind). -/
def rfindIdx (c : Char) (l : List Char) : Int :=
  rfindIdxAux c l 0 (-1)

/-- Embedding of os.path.splitext (posixpath variant): split off the
extension at the last dot of the basename, unless the basename up to that
dot consists only of dots. -/
def splitext (p : String) : String × String :=
  let l := p.data
  let sepIndex := rfindIdx '/' l
  let dotIndex := rfindIdx '.' l
  if sepIndex < dotIndex then
    let fnamePart := (l.drop (sepIndex + 1).toNat).take (dotIndex - sepIndex - 1).toNat
    if fnamePart.any (fun c => c ≠ '.') then
      (String.mk (l.take dotIndex.toNat), String.mk (l.drop dotIndex.toNat))
    else (p, "")
  else (p, "")

/-- One work-history entry as built by _extract_work_history: the raw
title / company / dates strings, plus an optional description list (the
description key is only present when description lines were collected). -/
structure Job where
  title : String
  company : String
  dates : String
  description : Option (List String) := none
deriving DecidableEq

/-- The parsed-profile record assembled by parse_resume (the Python dict;
confidence scores are the String-keyed float entries in insertion order,
floats modelled as exact rationals). -/
structure ParsedProfile where
  name : Option String
  email : Option String
  phone : Option String
  skills : List String
  experience : Option String
  education : Option String
  work_history : List Job
  location : Option String
  salary_expectation : Option String
  raw_text : String
  confidence_scores : List (String × ℚ)
deriving DecidableEq

/-- Embedding of EnhancedResumeParser._create_empty_result. -/
def create_empty_result : ParsedProfile :=
  { name := none
    email := none
    phone := none
    skills := []
    experience := none
    education := none
    work_history := []
    location := none
    salary_expectation := none
    raw_text := ""
    confidence_scores :=
      [("name", 0), ("email", 0), ("phone", 0), ("skills", 0),
       ("experience", 0), ("education", 0), ("overall", 0)] }

/-- Truthiness of an optional Python string (None and the empty string are
falsy). -/
def optTruthy : Option String → Bool
  | none => false
  | some s => s ≠ ""

/-- Name branch of _calculate_confidence_scores: 0.9 when the name is
truthy with at least two whitespace tokens, 0.6 when merely truthy,
otherwise 0.1. -/
def name_score (d : ParsedProfile) : ℚ :=
  match d.name with
  | none => 1/10
  | some n => if n ≠ "" ∧ 2 ≤ (pySplit n).length then 9/10
              else if n ≠ "" then 6/10 else 1/10

/-- Email branch of _calculate_confidence_scores. -/
def email_score (d : ParsedProfile) : ℚ :=
  match d.email with
  | none => 0
  | some s => if s ≠ "" then 95/100 else 0

/-- Phone branch of _calculate_confidence_scores. -/
def phone_score (d : ParsedProfile) : ℚ :=
  match d.phone with
  | none => 0
  | some s => if s ≠ "" then 85/100 else 0

/-- Skills branch of _calculate_confidence_scores. -/
def skills_score (d : ParsedProfile) : ℚ :=
  if 5 ≤ d.skills.length then 9/10
  else if 3 ≤ d.skills.length then 7/10
  else if 1 ≤ d.skills.length then 5/10
  else 1/10

/-- Experience branch of _calculate_confidence_scores. -/
def experience_score (d : ParsedProfile) : ℚ :=
  match d.experience with
  | none => 3/10
  | some s => if s ≠ "" then 8/10 else 3/10

/-- Education branch of _calculate_confidence_scores. -/
def education_score (d : ParsedProfile) : ℚ :=
  match d.education with
  | none => 2/10
  | some s => if s ≠ "" then 8/10 else 2/10

/-- Embedding of EnhancedResumeParser._calculate_confidence_scores: six
per-field entries in dict insertion order, then the overall entry computed
as sum of the present values divided by their number.  The text argument
is taken but unused, exactly as in the source. -/
def calculate_confidence_scores (d : ParsedProfile) (_text : String) :
    List (String × ℚ) :=
  let fieldScores : List (String × ℚ) :=
    [("name", name_score d), ("email", email_score d), ("phone", phone_score d),
     ("skills", skills_score d), ("experience", experience_score d),
     ("education", education_score d)]
  fieldScores ++ [("overall", (fieldScores.map Prod.snd).sum / (fieldScores.length : ℚ))]

/-- The skill taxonomy built in EnhancedResumeParser.__init__, as a list of
(category, canonical skill names) pairs in dict insertion order. -/
def skill_taxonomy : List (String × List String) :=
  [("programming_languages",
    ["Python", "Java", "JavaScript", "C++", "C#", "Ruby", "PHP", "Go", "Rust",
     "TypeScript", "Swift", "Kotlin", "Scala", "R", "MATLAB", "Perl", "C",
     "Objective-C", "Dart", "Julia", "F#", "Haskell"]),
   ("web_technologies",
    ["HTML", "CSS", "React", "Angular", "Vue.js", "Node.js", "Express.js",
     "Django", "Flask", "Spring Boot", "ASP.NET", "Laravel", "Ruby on Rails",
     "Next.js", "Nuxt.js", "Svelte", "Bootstrap", "Tailwind CSS"]),
   ("databases",
    ["MySQL", "PostgreSQL", "MongoDB", "Redis", "Cassandra", "DynamoDB",
     "Oracle", "SQL Server", "SQLite", "Elasticsearch", "MariaDB",
     "CouchDB", "InfluxDB"]),
   ("cloud_platforms",
    ["AWS", "Azure", "Google Cloud", "GCP", "Heroku", "DigitalOcean",
     "Linode", "Vercel", "Netlify", "Firebase"]),
   ("devops_tools",
    ["Docker", "Kubernetes", "Jenkins", "GitLab CI", "Travis CI", "CircleCI",
     "Terraform", "Ansible", "Puppet", "Chef", "Vagrant", "Prometheus",
     "Grafana"]),
   ("version_control",
    ["Git", "GitHub", "GitLab", "Bitbucket", "SVN", "Mercurial"]),
   ("soft_skills",
    ["Communication", "Leadership", "Problem Solving", "Teamwork", "Agile",
     "Scrum", "Project Management", "Time Management", "Critical Thinking",
     "Collaboration", "Adaptability"]),
   ("frameworks",
    ["TensorFlow", "PyTorch", "Keras", "Pandas", "NumPy", "Scikit-learn",
     "OpenCV", "Matplotlib", "Seaborn", "Plotly"])]

/-- The flattened taxonomy (self.all_skills): every category list
concatenated in order. -/
def all_skills : List String :=
  (skill_taxonomy.map Prod.snd).flatten

/-- Word-boundary test of the position just before a matched literal: the
regex \b holds when exactly one of the previous character (string edge
counts as non-word) and the first matched character is a word character. -/
def bdStart (prev : Option Char) (first : Char) : Bool :=
  match prev with
  | none => isWordChar first
  | some p => isWordChar p != isWordChar first

/-- Word-boundary test of the position just after a matched literal. -/
def bdEnd (lastc : Char) (next : Option Char) : Bool :=
  match next with
  | none => isWordChar lastc
  | some n => isWordChar lastc != isWordChar n

/-- Matching of the regex \b LITERAL \b at the head of s, given the
character preceding s (re.escape makes the skill a literal, so only the
two boundary assertions are regex-level features). -/
def wbMatchAt (pat : List Char) (prev : Option Char) (s : List Char) : Bool :=
  pat.isPrefixOf s &&
  (match pat.head? with
   | none => true
   | some f => bdStart prev f) &&
  (match pat.getLast? with
   | none => true
   | some l => bdEnd l ((s.drop pat.length).head?))

/-- Search for the regex \b LITERAL \b anywhere in s (re.search on the
pattern built in the direct branch of _extract_skills). -/
def wbSearch (pat : List Char) : Option Char → List Char → Bool
  | prev, [] => wbMatchAt pat prev []
  | prev, c :: rest => wbMatchAt pat prev (c :: rest) || wbSearch pat (some c) rest

/-- Substring containment on character lists (Python operator in). -/
def listContains (needle : List Char) : List Char → Bool
  | [] => needle.isPrefixOf []
  | c :: t => needle.isPrefixOf (c :: t) || listContains needle t

/-- Delimiters of the skills-section split regex [,;|•\n\-]+. -/
def isSkillDelim (c : Char) : Bool :=
  c = ',' || c = ';' || c = '|' || c = '•' || c = '\n' || c = '-'

/-- Set insertion for found_skills: found_skills is a Python set, modelled
as a duplicate-free list in insertion order. -/
def addSkill (acc : List String) (s : String) : List String :=
  if s ∈ acc then acc else acc ++ [s]

/-- One pass of for skill in self.all_skills: if cond skill:
found_skills.add(skill), starting from an already-collected set. -/
def skillScan (cond : String → Bool) (acc : List String) : List String :=
  all_skills.foldl (fun a sk => if cond sk then addSkill a sk else a) acc

/-- Lexicographic code-point comparison of character lists (the comparison
Python sorted uses on strings). -/
def listLe : List Char → List Char → Bool
  | [], _ => true
  | _ :: _, [] => false
  | a :: as, b :: bs => if a = b then listLe as bs else decide (a < b)

/-- Insertion into an ascending list of strings. -/
def insertSorted (x : String) : List String → List String
  | [] => [x]
  | y :: ys => if listLe x.data y.data then x :: y :: ys else y :: insertSorted x ys

/-- Ascending insertion sort (Python sorted on a list of strings). -/
def sortStrings : List String → List String
  | [] => []
  | x :: xs => insertSorted x (sortStrings xs)

/-- Embedding of EnhancedResumeParser._extract_skills.  The parameter
sectionText is group(1) of the skills-section regex search when that
search matched (the regex engine applied to that lazy/lookahead pattern is
treated as an oracle, so the theorems hold for every possible section
text); nlpAvailable and ents are the spaCy capability flag and the
entities (text, label) the external NLP collaborator returned.  The split
of the section on [,;|•\n\-]+ is modelled by the single-character split:
the two differ only in empty pieces, which the candidate check discards
either way.  An exception inside the NLP loop (caught in the source) only
truncates ents, which the quantification over ents covers.  The three
branches are split into skillsDirect, skillsSection and skillsNlp below,
composed in source order by extract_skills.  This comment describes the
direct branch: whole-word case-insensitive search of every taxonomy skill
in the full text. -/
def skillsDirect (text : String) : List String :=
  skillScan (fun sk => wbSearch (pyLower sk).data none (pyLower text).data) []

/-- Skills-section branch of _extract_skills: split the section text on the
delimiter characters, strip each candidate, and for candidates of at most
30 characters add every taxonomy skill contained (case-insensitively) in
the candidate. -/
def skillsSection (sectionText : Option String) (acc : List String) : List String :=
  match sectionText with
  | none => acc
  | some st =>
    (pySplitOn isSkillDelim st).foldl
      (fun a cand =>
        let c := pyStrip cand
        if c ≠ "" ∧ c.length ≤ 30 then
          skillScan (fun sk => listContains (pyLower sk).data (pyLower c).data) a
        else a) acc

/-- NLP branch of _extract_skills: for ORG/PRODUCT entities shorter than 30
characters, add every taxonomy skill equal (case-insensitively) to the
entity text. -/
def skillsNlp (nlpAvailable : Bool) (ents : List (String × String))
    (acc : List String) : List String :=
  if nlpAvailable then
    ents.foldl
      (fun a ent =>
        if (ent.2 = "ORG" ∨ ent.2 = "PRODUCT") ∧ ent.1.length < 30 then
          skillScan (fun sk => pyLower sk = pyLower ent.1) a
        else a) acc
  else acc

def extract_skills (text : String) (sectionText : Option String)
    (nlpAvailable : Bool) (ents : List (String × String)) : List String :=
  sortStrings (skillsNlp nlpAvailable ents (skillsSection sectionText (skillsDirect text)))

/-- Value of a digit string (int() on the matched group). -/
def digitsToNat (ds : List Char) : Nat :=
  ds.foldl (fun a c => 10 * a + (c.toNat - 48)) 0

/-- Greedy \d+ at the head of the input: the maximal digit run and the
rest.  Backtracking never shortens it here, since every continuation of
the five experience patterns starts with a non-digit. -/
def takeDigits (s : List Char) : Option (Nat × List Char) :=
  let ds := s.takeWhile Char.isDigit
  if ds = [] then none else some (digitsToNat ds, s.dropWhile Char.isDigit)

/-- Greedy \s* at the head of the input. -/
def skipWS (s : List Char) : List Char :=
  s.dropWhile pyIsSpace

/-- Greedy \s+ at the head of the input (at least one whitespace). -/
def skipWS1 (s : List Char) : Option (List Char) :=
  match s with
  | c :: r => if pyIsSpace c then some ((c :: r).dropWhile pyIsSpace) else none
  | [] => none

/-- Literal match at the head of the input. -/
def litMatch (w : List Char) (s : List Char) : Option (List Char) :=
  if w.isPrefixOf s then some (s.drop w.length) else none

/-- Optional single character c? (greedy; forced, because in each use the
continuation can never start with that character). -/
def optChar (c : Char) (s : List Char) : List Char :=
  match s with
  | x :: r => if x = c then r else x :: r
  | [] => []

/-- Optional group (?:of\s+)? (greedy; forced, because the continuation
literal experience cannot also start with of). -/
def optOfWs (s : List Char) : List Char :=
  match litMatch ("of".data) s with
  | some r =>
    match skipWS1 r with
    | some r2 => r2
    | none => s
  | none => s

/-- Matcher for (\d+)\+?\s*years?\s+(?:of\s+)?experience at a fixed
position of the lowercased text (pattern 1 of _extract_experience). -/
def matchExp1 (s : List Char) : Option Nat := do
  let (n, r1) ← takeDigits s
  let r2 := optChar '+' r1
  let r3 := skipWS r2
  let r4 ← litMatch ("year".data) r3
  let r5 := optChar 's' r4
  let r6 ← skipWS1 r5
  let r7 := optOfWs r6
  let _ ← litMatch ("experience".data) r7
  pure n

/-- Matcher for experience:?\s*(\d+)\+?\s*years? (pattern 2; the trailing
s? always succeeds and is dropped). -/
def matchExp2 (s : List Char) : Option Nat := do
  let r1 ← litMatch ("experience".data) s
  let r2 := optChar ':' r1
  let r3 := skipWS r2
  let (n, r4) ← takeDigits r3
  let r5 := optChar '+' r4
  let r6 := skipWS r5
  let _ ← litMatch ("year".data) r6
  pure n

/-- Matcher for (\d+)\+?\s*yrs?\s+(?:of\s+)?experience (pattern 3). -/
def matchExp3 (s : List Char) : Option Nat := do
  let (n, r1) ← takeDigits s
  let r2 := optChar '+' r1
  let r3 := skipWS r2
  let r4 ← litMatch ("yr".data) r3
  let r5 := optChar 's' r4
  let r6 ← skipWS1 r5
  let r7 := optOfWs r6
  let _ ← litMatch ("experience".data) r7
  pure n

/-- Matcher for over\s+(\d+)\s+years? (pattern 4). -/
def matchExp4 (s : List Char) : Option Nat := do
  let r1 ← litMatch ("over".data) s
  let r2 ← skipWS1 r1
  let (n, r3) ← takeDigits r2
  let r4 ← skipWS1 r3
  let _ ← litMatch ("year".data) r4
  pure n

/-- Matcher for more\s+than\s+(\d+)\s+years? (pattern 5). -/
def matchExp5 (s : List Char) : Option Nat := do
  let r1 ← litMatch ("more".data) s
  let r2 ← skipWS1 r1
  let r3 ← litMatch ("than".data) r2
  let r4 ← skipWS1 r3
  let (n, r5) ← takeDigits r4
  let r6 ← skipWS1 r5
  let _ ← litMatch ("year".data) r6
  pure n

/-- Leftmost search of a fixed-position matcher (re.search). -/
def searchPat (m : List Char → Option Nat) : List Char → Option Nat
  | [] => m []
  | c :: rest =>
    match m (c :: rest) with
    | some n => some n
    | none => searchPat m rest

/-- The five explicit experience patterns of _extract_experience, tried in
source order.  IGNORECASE is modelled by lowercasing the text, which does
not change the matched digit group. -/
def exp_patterns : List (List Char → Option Nat) :=
  [matchExp1, matchExp2, matchExp3, matchExp4, matchExp5]

/-- First explicit pattern match over the text (the loop of
_extract_experience before the date fallback). -/
def search_explicit_experience (text : String) : Option Nat :=
  exp_patterns.findSome? (fun m => searchPat m (pyLower text).data)

/-- Non-overlapping scan of re.findall for \b(19\d{2}|20[0-3]\d)\b: at
each position, a 4-digit year 1900-2039 bounded by non-word characters or
the string edges; on a match the scan resumes after its last character. -/
def findYears : Option Char → List Char → List Nat
  | _, [] => []
  | prev, c1 :: c2 :: c3 :: c4 :: rest4 =>
    if ((c1 = '1' && c2 = '9' && c3.isDigit && c4.isDigit) ||
        (c1 = '2' && c2 = '0' && (c3 = '0' || c3 = '1' || c3 = '2' || c3 = '3') && c4.isDigit)) &&
       (match prev with
        | none => true
        | some p => !isWordChar p) &&
       (match rest4.head? with
        | none => true
        | some nx => !isWordChar nx) then
      digitsToNat [c1, c2, c3, c4] :: findYears (some c4) rest4
    else
      findYears (some c1) (c2 :: c3 :: c4 :: rest4)
  | _, c1 :: rest => findYears (some c1) rest

/-- Embedding of EnhancedResumeParser._calculate_experience_from_dates.
The current year (datetime.now().year) is an explicit parameter.  The
difference is computed over the integers, and only accepted when it lies
in (0, 50]; it is then positive, so printing it as a natural number agrees
with the Python formatting. -/
def calculate_experience_from_dates (currentYear : Nat) (text : String) :
    Option String :=
  match findYears none text.data with
  | y1 :: y2 :: ys =>
    let year_ints := y1 :: y2 :: ys
    let start_year := year_ints.foldl Nat.min y1
    let end_year := Nat.min (year_ints.foldl Nat.max y1) currentYear
    let diff : Int := (end_year : Int) - (start_year : Int)
    if 0 < diff ∧ diff ≤ 50 then some (toString diff.toNat ++ "+ years") else none
  | _ => none

/-- Embedding of EnhancedResumeParser._extract_experience: first explicit
pattern match wins and is rendered as N+ years; otherwise the date-span
fallback decides. -/
def extract_experience (currentYear : Nat) (text : String) : Option String :=
  match search_explicit_experience text with
  | some n => some (toString n ++ "+ years")
  | none => calculate_experience_from_dates currentYear text

/-- Closing of the current job dict before it is appended: when description
lines were collected, at most the first three become its description. -/
def closeJob (j : Job) (desc : List String) : Job :=
  if desc ≠ [] then { j with description := some (desc.take 3) } else j

/-- Line loop of _extract_work_history over the lines of the experience
section.  State: the open job dict (empty dict modelled as none), the
collected description lines and the jobs already appended.  jobMatch
models the three job-header regex alternatives tried on a stripped line,
yielding the stripped title / company / dates triple of the first match
(group 3 absent gives the empty string). -/
def whLoop (jobMatch : String → Option (String × String × String)) :
    List String → Option Job → List String → List Job → List Job
  | [], cur, desc, acc =>
    (match cur with
     | none => acc
     | some j => acc ++ [closeJob j desc])
  | rawLine :: rest, cur, desc, acc =>
    let line := pyStrip rawLine
    if line = "" then whLoop jobMatch rest cur desc acc
    else
      match jobMatch line with
      | some (t, c, dt) =>
        (match cur with
         | none =>
           whLoop jobMatch rest (some { title := t, company := c, dates := dt }) desc acc
         | some j =>
           whLoop jobMatch rest (some { title := t, company := c, dates := dt }) []
             (acc ++ [closeJob j desc]))
      | none =>
        if cur.isSome ∧ desc.length < 5 then
          if strStartsWithChar line '•' ∨ strStartsWithChar line '-' ∨ strStartsWithChar line '*' then
            whLoop jobMatch rest cur (desc ++ [pyStrip (String.mk (line.data.drop 1))]) acc
          else if 20 < line.length then
            whLoop jobMatch rest cur (desc ++ [line]) acc
          else whLoop jobMatch rest cur desc acc
        else whLoop jobMatch rest cur desc acc

/-- Embedding of EnhancedResumeParser._extract_work_history.  findSection
models re.search with the experience-section pattern, returning group(1)
when it matched (the regex engine on that lazy/lookahead pattern is an
oracle parameter, so the theorems quantify over every possible section
text); the section is split on newlines and fed to the line loop, and the
result is capped to the first five entries. -/
def extract_work_history (findSection : String → Option String)
    (jobMatch : String → Option (String × String × String)) (text : String) :
    List Job :=
  match findSection text with
  | none => []
  | some expText => (whLoop jobMatch (pySplitOn (fun c => c = '\n') expText) none [] []).take 5

/-- Outcomes the external readers can produce: the per-page texts of a PDF
(PyPDF2; an empty page text is one that page.extract_text() returned empty
or None), or the paragraphs and tables of a DOCX (python-docx), or an
exception. -/
structure LoaderEnv where
  pdf_parsing_available : Bool
  docx_parsing_available : Bool
  pdfPages : String → Except String (List String)
  docxDoc : String → Except String (List String × List (List (List String)))

/-- Embedding of EnhancedResumeParser._extract_pdf_text: the fixed message
when PyPDF2 is missing, the empty string when reading raised, otherwise
the non-empty page texts concatenated with newlines and stripped. -/
def extract_pdf_text (env : LoaderEnv) (path : String) : String :=
  if env.pdf_parsing_available = false then
    "PDF parsing not available. Please install PyPDF2."
  else
    match env.pdfPages path with
    | Except.error _ => ""
    | Except.ok pages =>
      pyStrip (pages.foldl (fun acc pg => if pg ≠ "" then acc ++ pg ++ "\n" else acc) "")

/-- Embedding of EnhancedResumeParser._extract_docx_text: the fixed message
when python-docx is missing, the empty string when reading raised,
otherwise paragraphs whose stripped text is non-empty (kept unstripped)
followed by one pipe-joined line per table row with non-empty cells, all
joined with newlines. -/
def extract_docx_text (env : LoaderEnv) (path : String) : String :=
  if env.docx_parsing_available = false then
    "DOCX parsing not available. Please install python-docx."
  else
    match env.docxDoc path with
    | Except.error _ => ""
    | Except.ok (paras, tables) =>
      let parts1 := paras.filter (fun p => pyStrip p ≠ "")
      let parts2 := tables.foldl
        (fun acc tbl =>
          tbl.foldl
            (fun acc2 row =>
              let row_text := (row.filter (fun c => pyStrip c ≠ "")).map pyStrip
              if row_text ≠ [] then acc2 ++ [String.intercalate (" | ") row_text]
              else acc2) acc) parts1
      String.intercalate ("\n") parts2

/-- Embedding of EnhancedResumeParser._extract_text_from_file.  Dispatch is
on the lowercased splitext extension.  The .txt branch evaluates
aiofiles.open, but the module never imports aiofiles, so the branch raises
NameError, which the enclosing try of this very method swallows into the
empty string; the unknown-extension branch raises the same NameError
inside its inner try and its bare except returns the empty string. -/
def extract_text_from_file (env : LoaderEnv) (path : String) : String :=
  let ext := pyLower (splitext path).2
  let body : Except String String :=
    if ext = ".pdf" then Except.ok (extract_pdf_text env path)
    else if ext = ".docx" ∨ ext = ".doc" then Except.ok (extract_docx_text env path)
    else if ext = ".txt" then Except.error ("NameError: name aiofiles is not defined")
    else Except.ok ""
  match body with
  | Except.ok t => t
  | Except.error _ => ""

/-- The nine field extractors as parse_resume calls them, as functions that
may raise (Except models a Python exception).  The concrete pure bodies
embedded above (extract_skills, extract_experience, extract_work_history)
instantiate the corresponding slots with Except.ok results; arbitrary
values model extractors that throw, which the error-handling claims are
about. -/
structure Extractors where
  name : String → Except String (Option String)
  email : String → Except String (Option String)
  phone : String → Except String (Option String)
  skills : String → Except String (List String)
  experience : String → Except String (Option String)
  education : String → Except String (Option String)
  work_history : String → Except String (List Job)
  location : String → Except String (Option String)
  salary_expectation : String → Except String (Option String)

/-- Body of the try block of parse_resume: load the text, short-circuit on
whitespace-only text, run the nine extractors in dict order (the first
exception aborts the whole dict construction), then attach the confidence
scores.  raw_text is the text truncated to 2000 characters. -/
def parse_resume_attempt (loader : String → Except String String)
    (ex : Extractors) (file_path : String) : Except String ParsedProfile :=
  match loader file_path with
  | Except.error e => Except.error e
  | Except.ok text =>
    if pyStrip text = "" then Except.ok create_empty_result
    else
      match ex.name text with
      | Except.error e => Except.error e
      | Except.ok vname =>
      match ex.email text with
      | Except.error e => Except.error e
      | Except.ok vemail =>
      match ex.phone text with
      | Except.error e => Except.error e
      | Except.ok vphone =>
      match ex.skills text with
      | Except.error e => Except.error e
      | Except.ok vskills =>
      match ex.experience text with
      | Except.error e => Except.error e
      | Except.ok vexperience =>
      match ex.education text with
      | Except.error e => Except.error e
      | Except.ok veducation =>
      match ex.work_history text with
      | Except.error e => Except.error e
      | Except.ok vwork =>
      match ex.location text with
      | Except.error e => Except.error e
      | Except.ok vlocation =>
      match ex.salary_expectation text with
      | Except.error e => Except.error e
      | Except.ok vsalary =>
        let d : ParsedProfile :=
          { name := vname, email := vemail, phone := vphone, skills := vskills,
            experience := vexperience, education := veducation,
            work_history := vwork, location := vlocation,
            salary_expectation := vsalary, raw_text := String.mk (text.data.take 2000),
            confidence_scores := [] }
        Except.ok { d with confidence_scores := calculate_confidence_scores d text }

/-- Embedding of EnhancedResumeParser.parse_resume: the try body with its
top-level except Exception handler, which converts any raised exception
into the canonical empty result. -/
def parse_resume (loader : String → Except String String) (ex : Extractors)
    (file_path : String) : ParsedProfile :=
  match parse_resume_attempt loader ex file_path with
  | Except.ok p => p
  | Except.error _ => create_empty_result

/-- parse_resume with its loader instantiated by the embedded
_extract_text_from_file (the call on line 114 of the source); the loader
itself never raises. -/
def parse_resume_file (env : LoaderEnv) (ex : Extractors) (file_path : String) :
    ParsedProfile :=
  parse_resume (fun p => Except.ok (extract_text_from_file env p)) ex file_path

/-- Extractor record whose nine slots all succeed with empty results; used
to instantiate the parse model at concrete inputs. -/
def EX0 : Extractors :=
  { name := fun _ => Except.ok none
    email := fun _ => Except.ok none
    phone := fun _ => Except.ok none
    skills := fun _ => Except.ok []
    experience := fun _ => Except.ok none
    education := fun _ => Except.ok none
    work_history := fun _ => Except.ok []
    location := fun _ => Except.ok none
    salary_expectation := fun _ => Except.ok none }

/-- Loader that always yields the same non-blank text. -/
def okLoader : String → Except String String :=
  fun _ => Except.ok ("Jane Doe jane@site.net")

/-- Loader whose read raises. -/
def errLoader : String → Except String String :=
  fun _ => Except.error ("io error")

/-- Loader that yields whitespace-only text. -/
def blankLoader : String → Except String String :=
  fun _ => Except.ok (" \n\t ")

/-- Extractors where the name extractor raises while the email extractor
succeeds with an address, as in the partial-failure scenario. -/
def badNameEx : Extractors :=
  { EX0 with
    name := fun _ => Except.error ("name extractor raised")
    email := fun _ => Except.ok (some ("jane@site.net")) }

/-- Extractors where only the phone extractor raises. -/
def badPhoneEx : Extractors :=
  { EX0 with phone := fun _ => Except.error ("phone extractor raised") }

/-- Loader environment with both optional parsing libraries missing. -/
def noPdfEnv : LoaderEnv :=
  { pdf_parsing_available := false
    docx_parsing_available := false
    pdfPages := fun _ => Except.ok []
    docxDoc := fun _ => Except.ok ([], []) }

/-- Loader environment where both libraries are present but every read
raises (corrupt file / unreadable bytes). -/
def errEnv : LoaderEnv :=
  { pdf_parsing_available := true
    docx_parsing_available := true
    pdfPages := fun _ => Except.error ("corrupt file")
    docxDoc := fun _ => Except.error ("corrupt file") }

/-- Section finder for the work-history witness: the whole text is the
section. -/
def whFs : String → Option String := fun t => some t

/-- Job matcher for the work-history witness: recognises one fixed header
line. -/
def whJm : String → Option (String × String × String) :=
  fun l => if l = "Dev | Acme" then some ("Dev", "Acme", "") else none

/-- Sample profile used to exercise the confidence scorer at concrete
values. -/
def d0 : ParsedProfile :=
  { name := some ("John Smith")
    email := some ("john@site.co")
    phone := none
    skills := ["AWS", "Git", "Python"]
    experience := none
    education := some ("BS")
    work_history := []
    location := none
    salary_expectation := none
    raw_text := ""
    confidence_scores := [] }

/-- Membership after sorted insertion comes from the inserted element or
the original list. -/
theorem mem_insertSorted {x y : String} :
    ∀ {l : List String}, y ∈ insertSorted x l → y = x ∨ y ∈ l := by
  intro l
  induction l with
  | nil =>
    intro h
    simp [insertSorted] at h
    exact Or.inl h
  | cons z zs ih =>
    intro h
    simp only [insertSorted] at h
    split at h
    · rcases List.mem_cons.mp h with h1 | h1
      · exact Or.inl h1
      · exact Or.inr h1
    · rcases List.mem_cons.mp h with h1 | h1
      · exact Or.inr (List.mem_cons.mpr (Or.inl h1))
      · rcases ih h1 with h2 | h2
        · exact Or.inl h2
        · exact Or.inr (List.mem_cons.mpr (Or.inr h2))

/-- Sorting does not create new members. -/
theorem mem_sortStrings {y : String} :
    ∀ {l : List String}, y ∈ sortStrings l → y ∈ l := by
  intro l
  induction l with
  | nil => intro h; simp [sortStrings] at h
  | cons x xs ih =>
    intro h
    rcases mem_insertSorted h with h1 | h1
    · exact h1 ▸ List.mem_cons_self x xs
    · exact List.mem_cons.mpr (Or.inr (ih h1))

/-- Set insertion preserves a predicate holding on the set and the new
element. -/
theorem addSkill_subset {acc : List String} {x : String}
    (hacc : ∀ z ∈ acc, z ∈ all_skills) (hx : x ∈ all_skills) :
    ∀ z ∈ addSkill acc x, z ∈ all_skills := by
  intro z hz
  unfold addSkill at hz
  split at hz
  · exact hacc z hz
  · rcases List.mem_append.mp hz with h | h
    · exact hacc z h
    · simp at h
      exact h ▸ hx

/-- A fold that conditionally set-inserts elements of its traversed list
preserves taxonomy membership when that list is made of taxonomy
members. -/
theorem skillFold_subset (cond : String → Bool) :
    ∀ (l : List String) (acc : List String),
      (∀ z ∈ acc, z ∈ all_skills) → (∀ z ∈ l, z ∈ all_skills) →
      ∀ z ∈ l.foldl (fun a sk => if cond sk then addSkill a sk else a) acc,
        z ∈ all_skills := by
  intro l
  induction l with
  | nil => intro acc hacc _ z hz; exact hacc z hz
  | cons x xs ih =>
    intro acc hacc hl z hz
    simp only [List.foldl_cons] at hz
    refine ih _ ?_ (fun w hw => hl w (List.mem_cons.mpr (Or.inr hw))) z hz
    intro w hw
    by_cases hc : cond x
    · rw [if_pos hc] at hw
      exact addSkill_subset hacc (hl x (List.mem_cons_self x xs)) w hw
    · rw [if_neg hc] at hw
      exact hacc w hw

/-- One skillScan pass only ever adds canonical taxonomy names. -/
theorem skillScan_subset (cond : String → Bool) (acc : List String)
    (hacc : ∀ z ∈ acc, z ∈ all_skills) :
    ∀ z ∈ skillScan cond acc, z ∈ all_skills :=
  skillFold_subset cond all_skills acc hacc (fun _ hz => hz)

/-- A fold whose every step preserves taxonomy membership preserves it
overall. -/
theorem foldl_preserve {α : Type} (g : List String → α → List String)
    (hg : ∀ acc a, (∀ z ∈ acc, z ∈ all_skills) → ∀ z ∈ g acc a, z ∈ all_skills) :
    ∀ (l : List α) (acc : List String), (∀ z ∈ acc, z ∈ all_skills) →
      ∀ z ∈ l.foldl g acc, z ∈ all_skills := by
  intro l
  induction l with
  | nil => intro acc hacc z hz; exact hacc z hz
  | cons x xs ih =>
    intro acc hacc z hz
    simp only [List.foldl_cons] at hz
    exact ih _ (hg acc x hacc) z hz

/-- The skills-section branch only ever adds canonical taxonomy names. -/
theorem skillsSection_subset (sec : Option String) (acc : List String)
    (hacc : ∀ z ∈ acc, z ∈ all_skills) :
    ∀ z ∈ skillsSection sec acc, z ∈ all_skills := by
  cases sec with
  | none => exact hacc
  | some st =>
    refine foldl_preserve _ ?_ _ acc hacc
    intro a cand ha
    dsimp only
    split
    · exact skillScan_subset _ _ ha
    · exact ha

/-- The NLP branch only ever adds canonical taxonomy names. -/
theorem skillsNlp_subset (avail : Bool) (ents : List (String × String))
    (acc : List String) (hacc : ∀ z ∈ acc, z ∈ all_skills) :
    ∀ z ∈ skillsNlp avail ents acc, z ∈ all_skills := by
  unfold skillsNlp
  split
  · refine foldl_preserve _ ?_ _ acc hacc
    intro a ent ha
    dsimp only
    split
    · exact skillScan_subset _ _ ha
    · exact ha
  · exact hacc

/-- Claim C5: every string the skills extractor returns is a canonical
name of the flattened skill taxonomy, for every input text, every possible
skills-section text the regex engine can report, and every entity list the
NLP collaborator can return; no raw extracted substring outside the
taxonomy ever appears, on any of the three match paths. -/
theorem skills_subset_taxonomy (text : String) (sectionText : Option String)
    (nlpAvailable : Bool) (ents : List (String × String)) (s : String)
    (h : s ∈ extract_skills text sectionText nlpAvailable ents) :
    s ∈ all_skills := by
  unfold extract_skills at h
  have h2 := mem_sortStrings h
  refine skillsNlp_subset _ _ _ ?_ s h2
  refine skillsSection_subset _ _ ?_
  intro z hz
  exact skillScan_subset _ _ (fun w hw => by cases hw) z hz

/-- Witness for C5 at a concrete input: the direct branch finds Python in
the text, and the theorem places it in the taxonomy. -/
theorem skills_subset_taxonomy_witness : ("Python" : String) ∈ all_skills :=
  skills_subset_taxonomy ("I know python well") none false [] ("Python") (by decide)

/-- Counterexample to claim C7 as stated: on the text 55 years of
experience the explicit-phrasing path returns 55+ years, whose count 55
exceeds the claimed bound N ≤ 50. -/
theorem experience_format_counterexample :
    extract_experience 2026 ("55 years of experience") = some ("55+ years") ∧
    ("55+ years" : String) = toString (55 : Nat) ++ "+ years" ∧ ¬((55 : Nat) ≤ 50) :=
  ⟨by decide, rfl, by decide⟩

/-- Claim C7 amended: every value the experience extractor returns has the
form N+ years for a natural number N; when it comes from the date-span
fallback (no explicit pattern matched), N additionally lies in (0, 50];
the explicit-phrasing path imposes no upper bound on N. -/
theorem experience_format_amended (currentYear : Nat) (text s : String)
    (h : extract_experience currentYear text = some s) :
    ∃ n : Nat, s = toString n ++ "+ years" ∧
      (search_explicit_experience text = some n ∨
       (search_explicit_experience text = none ∧ 0 < n ∧ n ≤ 50)) := by
  unfold extract_experience at h
  cases hx : search_explicit_experience text with
  | some n =>
    rw [hx] at h
    exact ⟨n, (Option.some.inj h).symm, Or.inl rfl⟩
  | none =>
    rw [hx] at h
    unfold calculate_experience_from_dates at h
    cases hy : findYears none text.data with
    | nil => rw [hy] at h; cases h
    | cons y1 tl =>
      cases tl with
      | nil => rw [hy] at h; cases h
      | cons y2 ys =>
        rw [hy] at h
        dsimp only at h
        split at h
        · next hcond =>
            refine ⟨_, (Option.some.inj h).symm, Or.inr ⟨rfl, ?_, ?_⟩⟩ <;> omega
        · cases h

/-- Witness for the amended C7 at a concrete input handled by the explicit
path. -/
theorem experience_format_amended_witness :
    ∃ n : Nat, ("5+ years" : String) = toString n ++ "+ years" ∧
      (search_explicit_experience ("5 years experience") = some n ∨
       (search_explicit_experience ("5 years experience") = none ∧ 0 < n ∧ n ≤ 50)) :=
  experience_format_amended 2026 ("5 years experience") ("5+ years") (by decide)

/-- Lookup of the name entry of the score dict. -/
theorem lookup_name_score (d : ParsedProfile) (t : String) :
    List.lookup ("name") (calculate_confidence_scores d t) = some (name_score d) := rfl

/-- Lookup of the email entry of the score dict. -/
theorem lookup_email_score (d : ParsedProfile) (t : String) :
    List.lookup ("email") (calculate_confidence_scores d t) = some (email_score d) := rfl

/-- Lookup of the phone entry of the score dict. -/
theorem lookup_phone_score (d : ParsedProfile) (t : String) :
    List.lookup ("phone") (calculate_confidence_scores d t) = some (phone_score d) := rfl

/-- Lookup of the skills entry of the score dict. -/
theorem lookup_skills_score (d : ParsedProfile) (t : String) :
    List.lookup ("skills") (calculate_confidence_scores d t) = some (skills_score d) := rfl

/-- Lookup of the experience entry of the score dict. -/
theorem lookup_experience_score (d : ParsedProfile) (t : String) :
    List.lookup ("experience") (calculate_confidence_scores d t) = some (experience_score d) := rfl

/-- Lookup of the education entry of the score dict. -/
theorem lookup_education_score (d : ParsedProfile) (t : String) :
    List.lookup ("education") (calculate_confidence_scores d t) = some (education_score d) := rfl

/-- Claim C6: the confidence scorer assigns exactly the documented
constants for every parsed profile: name 0.9 with at least two tokens, 0.6
when present with one token, 0.1 when absent; email 0.95 present / 0.0
absent; phone 0.85 / 0.0; skills 0.9 for at least five, 0.7 for at least
three, 0.5 for at least one, 0.1 for none; experience 0.8 / 0.3;
education 0.8 / 0.2.  Present means a non-empty extracted string, which is
the only shape the extractors produce. -/
theorem confidence_score_constants (d : ParsedProfile) (t : String) :
    (d.name = none → List.lookup ("name") (calculate_confidence_scores d t) = some (1/10)) ∧
    (∀ n, d.name = some n → (pySplit n).length = 1 →
       List.lookup ("name") (calculate_confidence_scores d t) = some (6/10)) ∧
    (∀ n, d.name = some n → 2 ≤ (pySplit n).length →
       List.lookup ("name") (calculate_confidence_scores d t) = some (9/10)) ∧
    (d.email = none → List.lookup ("email") (calculate_confidence_scores d t) = some 0) ∧
    (∀ s, d.email = some s → s ≠ "" →
       List.lookup ("email") (calculate_confidence_scores d t) = some (95/100)) ∧
    (d.phone = none → List.lookup ("phone") (calculate_confidence_scores d t) = some 0) ∧
    (∀ s, d.phone = some s → s ≠ "" →
       List.lookup ("phone") (calculate_confidence_scores d t) = some (85/100)) ∧
    (5 ≤ d.skills.length →
       List.lookup ("skills") (calculate_confidence_scores d t) = some (9/10)) ∧
    (3 ≤ d.skills.length → d.skills.length < 5 →
       List.lookup ("skills") (calculate_confidence_scores d t) = some (7/10)) ∧
    (1 ≤ d.skills.length → d.skills.length < 3 →
       List.lookup ("skills") (calculate_confidence_scores d t) = some (5/10)) ∧
    (d.skills.length = 0 →
       List.lookup ("skills") (calculate_confidence_scores d t) = some (1/10)) ∧
    (d.experience = none →
       List.lookup ("experience") (calculate_confidence_scores d t) = some (3/10)) ∧
    (∀ s, d.experience = some s → s ≠ "" →
       List.lookup ("experience") (calculate_confidence_scores d t) = some (8/10)) ∧
    (d.education = none →
       List.lookup ("education") (calculate_confidence_scores d t) = some (2/10)) ∧
    (∀ s, d.education = some s → s ≠ "" →
       List.lookup ("education") (calculate_confidence_scores d t) = some (8/10)) := by
  refine ⟨?_, ?_, ?_, ?_, ?_, ?_, ?_, ?_, ?_, ?_, ?_, ?_, ?_, ?_, ?_⟩
  · intro h
    rw [lookup_name_score]
    unfold name_score
    rw [h]
  · intro n hn h1
    rw [lookup_name_score]
    unfold name_score
    rw [hn]
    dsimp only
    have hne : n ≠ "" := by
      intro he
      rw [he] at h1
      exact absurd h1 (by decide)
    rw [if_neg (fun hc => by omega), if_pos hne]
  · intro n hn h2
    rw [lookup_name_score]
    unfold name_score
    rw [hn]
    dsimp only
    have hne : n ≠ "" := by
      intro he
      rw [he] at h2
      exact absurd h2 (by decide)
    rw [if_pos ⟨hne, h2⟩]
  · intro h
    rw [lookup_email_score]
    unfold email_score
    rw [h]
  · intro s hs hne
    rw [lookup_email_score]
    unfold email_score
    rw [hs]
    dsimp only
    rw [if_pos hne]
  · intro h
    rw [lookup_phone_score]
    unfold phone_score
    rw [h]
  · intro s hs hne
    rw [lookup_phone_score]
    unfold phone_score
    rw [hs]
    dsimp only
    rw [if_pos hne]
  · intro h5
    rw [lookup_skills_score]
    unfold skills_score
    rw [if_pos h5]
  · intro h3 h5
    rw [lookup_skills_score]
    unfold skills_score
    rw [if_neg (by omega), if_pos h3]
  · intro h1 h3
    rw [lookup_skills_score]
    unfold skills_score
    rw [if_neg (by omega), if_neg (by omega), if_pos h1]
  · intro h0
    rw [lookup_skills_score]
    unfold skills_score
    rw [if_neg (by omega), if_neg (by omega), if_neg (by omega)]
  · intro h
    rw [lookup_experience_score]
    unfold experience_score
    rw [h]
  · intro s hs hne
    rw [lookup_experience_score]
    unfold experience_score
    rw [hs]
    dsimp only
    rw [if_pos hne]
  · intro h
    rw [lookup_education_score]
    unfold education_score
    rw [h]
  · intro s hs hne
    rw [lookup_education_score]
    unfold education_score
    rw [hs]
    dsimp only
    rw [if_pos hne]

/-- Witness for C6 at a concrete profile: two-token name, present email,
absent phone, three skills, absent experience, present education. -/
theorem confidence_score_constants_witness :
    List.lookup ("name") (calculate_confidence_scores d0 "") = some (9/10) ∧
    List.lookup ("email") (calculate_confidence_scores d0 "") = some (95/100) ∧
    List.lookup ("phone") (calculate_confidence_scores d0 "") = some 0 ∧
    List.lookup ("skills") (calculate_confidence_scores d0 "") = some (7/10) ∧
    List.lookup ("experience") (calculate_confidence_scores d0 "") = some (3/10) ∧
    List.lookup ("education") (calculate_confidence_scores d0 "") = some (8/10) :=
  ⟨(confidence_score_constants d0 "").2.2.1 ("John Smith") rfl (by decide),
   (confidence_score_constants d0 "").2.2.2.2.1 ("john@site.co") rfl (by decide),
   (confidence_score_constants d0 "").2.2.2.2.2.1 rfl,
   (confidence_score_constants d0 "").2.2.2.2.2.2.2.2.1 (by decide) (by decide),
   (confidence_score_constants d0 "").2.2.2.2.2.2.2.2.2.2.2.1 rfl,
   (confidence_score_constants d0 "").2.2.2.2.2.2.2.2.2.2.2.2.2.2 ("BS") rfl (by decide)⟩

/-- Shape of the score dict: six field entries followed by the overall
entry holding their mean. -/
theorem scores_shape (d : ParsedProfile) (t : String) :
    calculate_confidence_scores d t =
      [("name", name_score d), ("email", email_score d), ("phone", phone_score d),
       ("skills", skills_score d), ("experience", experience_score d),
       ("education", education_score d),
       ("overall",
         (name_score d + email_score d + phone_score d + skills_score d +
          experience_score d + education_score d) / 6)] := by
  unfold calculate_confidence_scores
  simp [List.map, List.sum_cons, List.sum_nil]
  ring_nf

/-- Every run of the parse_resume try body either returns the canonical
empty result (blank text), raises, or returns a record whose score dict
comes from the scorer. -/
theorem attempt_cases (loader : String → Except String String) (ex : Extractors)
    (path : String) :
    parse_resume_attempt loader ex path = Except.ok create_empty_result ∨
    (∃ e, parse_resume_attempt loader ex path = Except.error e) ∨
    (∃ d : ParsedProfile, ∃ t : String,
       parse_resume_attempt loader ex path =
         Except.ok { d with confidence_scores := calculate_confidence_scores d t }) := by
  unfold parse_resume_attempt
  cases hl : loader path with
  | error e => exact Or.inr (Or.inl ⟨e, rfl⟩)
  | ok text =>
    dsimp only
    by_cases hs : pyStrip text = ""
    · rw [if_pos hs]
      exact Or.inl rfl
    · rw [if_neg hs]
      cases h1 : ex.name text with
      | error e => exact Or.inr (Or.inl ⟨e, rfl⟩)
      | ok v1 =>
      cases h2 : ex.email text with
      | error e => exact Or.inr (Or.inl ⟨e, rfl⟩)
      | ok v2 =>
      cases h3 : ex.phone text with
      | error e => exact Or.inr (Or.inl ⟨e, rfl⟩)
      | ok v3 =>
      cases h4 : ex.skills text with
      | error e => exact Or.inr (Or.inl ⟨e, rfl⟩)
      | ok v4 =>
      cases h5 : ex.experience text with
      | error e => exact Or.inr (Or.inl ⟨e, rfl⟩)
      | ok v5 =>
      cases h6 : ex.education text with
      | error e => exact Or.inr (Or.inl ⟨e, rfl⟩)
      | ok v6 =>
      cases h7 : ex.work_history text with
      | error e => exact Or.inr (Or.inl ⟨e, rfl⟩)
      | ok v7 =>
      cases h8 : ex.location text with
      | error e => exact Or.inr (Or.inl ⟨e, rfl⟩)
      | ok v8 =>
      cases h9 : ex.salary_expectation text with
      | error e => exact Or.inr (Or.inl ⟨e, rfl⟩)
      | ok v9 =>
        exact Or.inr (Or.inr
          ⟨{ name := v1, email := v2, phone := v3, skills := v4,
             experience := v5, education := v6, work_history := v7,
             location := v8, salary_expectation := v9,
             raw_text := String.mk (text.data.take 2000),
             confidence_scores := [] }, text, rfl⟩)

/-- Claim C3: every profile the pipeline produces carries a confidence
score dict with exactly the six per-field entries (name, email, phone,
skills, experience, education) followed by an overall entry equal to their
unweighted arithmetic mean; this holds for every loader and extractor
behaviour, including the canonical empty profile. -/
theorem confidence_overall_mean (loader : String → Except String String)
    (ex : Extractors) (path : String) :
    ∃ v1 v2 v3 v4 v5 v6 : ℚ,
      (parse_resume loader ex path).confidence_scores =
        [("name", v1), ("email", v2), ("phone", v3), ("skills", v4),
         ("experience", v5), ("education", v6),
         ("overall", (v1 + v2 + v3 + v4 + v5 + v6) / 6)] := by
  unfold parse_resume
  rcases attempt_cases loader ex path with h | ⟨e, h⟩ | ⟨d, t, h⟩ <;> rw [h]
  · exact ⟨0, 0, 0, 0, 0, 0, by norm_num [create_empty_result]⟩
  · exact ⟨0, 0, 0, 0, 0, 0, by norm_num [create_empty_result]⟩
  · exact ⟨name_score d, email_score d, phone_score d, skills_score d,
      experience_score d, education_score d, scores_shape d t⟩

/-- Claim C1: parse_resume always returns a profile and never propagates
an exception: whatever the loader and the extractors raise, the top-level
handler converts the failure into the canonical empty profile, and a
successful try body is returned unchanged. -/
theorem parse_resume_total_catch (loader : String → Except String String)
    (ex : Extractors) (path : String) :
    (∀ e, parse_resume_attempt loader ex path = Except.error e →
       parse_resume loader ex path = create_empty_result) ∧
    (∀ p, parse_resume_attempt loader ex path = Except.ok p →
       parse_resume loader ex path = p) := by
  constructor
  · intro e h
    unfold parse_resume
    rw [h]
  · intro p h
    unfold parse_resume
    rw [h]

/-- Witness for C1: a raising loader yields the canonical empty profile. -/
theorem parse_resume_total_catch_witness :
    parse_resume errLoader EX0 ("resume.pdf") = create_empty_result :=
  (parse_resume_total_catch errLoader EX0 ("resume.pdf")).1 ("io error") rfl

/-- Claim C2: when the extracted text is empty or whitespace-only,
parse_resume short-circuits to the canonical empty profile, whose optional
fields are all absent, whose collections are empty and whose confidence
entries (overall included) are all exactly 0.0; the extractors do not
influence the result (the conclusion holds for every extractor record). -/
theorem parse_resume_empty_text (loader : String → Except String String)
    (ex : Extractors) (path text : String) (h1 : loader path = Except.ok text)
    (h2 : pyStrip text = "") :
    parse_resume loader ex path = create_empty_result ∧
    create_empty_result.name = none ∧ create_empty_result.email = none ∧
    create_empty_result.phone = none ∧ create_empty_result.skills = [] ∧
    create_empty_result.experience = none ∧ create_empty_result.education = none ∧
    create_empty_result.work_history = [] ∧ create_empty_result.location = none ∧
    create_empty_result.salary_expectation = none ∧
    ∀ p ∈ create_empty_result.confidence_scores, p.2 = 0 := by
  refine ⟨?_, rfl, rfl, rfl, rfl, rfl, rfl, rfl, rfl, rfl, by decide⟩
  unfold parse_resume parse_resume_attempt
  rw [h1]
  dsimp only
  rw [if_pos h2]

/-- Witness for C2 on whitespace-only text. -/
theorem parse_resume_empty_text_witness :
    parse_resume blankLoader EX0 ("upload.bin") = create_empty_result ∧
    create_empty_result.name = none ∧ create_empty_result.email = none ∧
    create_empty_result.phone = none ∧ create_empty_result.skills = [] ∧
    create_empty_result.experience = none ∧ create_empty_result.education = none ∧
    create_empty_result.work_history = [] ∧ create_empty_result.location = none ∧
    create_empty_result.salary_expectation = none ∧
    ∀ p ∈ create_empty_result.confidence_scores, p.2 = 0 :=
  parse_resume_empty_text blankLoader EX0 ("upload.bin") (" \n\t ") rfl (by decide)

/-- Counterexample to claim C8 as stated: with a raising name extractor
and a succeeding email extractor on the same non-blank text, the parsed
profile has email = none instead of the email extractor result — the
failure is not contained to the name field. -/
theorem extractor_failure_counterexample :
    badNameEx.name ("Jane Doe jane@site.net") = Except.error ("name extractor raised") ∧
    badNameEx.email ("Jane Doe jane@site.net") = Except.ok (some ("jane@site.net")) ∧
    okLoader ("resume.pdf") = Except.ok ("Jane Doe jane@site.net") ∧
    pyStrip ("Jane Doe jane@site.net") ≠ "" ∧
    parse_resume okLoader badNameEx ("resume.pdf") = create_empty_result ∧
    (parse_resume okLoader badNameEx ("resume.pdf")).email = none :=
  ⟨rfl, rfl, rfl, by decide, by decide, by decide⟩

/-- Claim C8 amended: parse_resume has no per-extractor handler; an
exception in any one of the nine field extractors propagates to the
top-level handler and the whole result collapses to the canonical empty
profile (every field absent), not just the failing field.  Only the NLP
sub-step of the skills extractor and the date-span helper catch locally. -/
theorem extractor_failure_amended (loader : String → Except String String)
    (ex : Extractors) (path text e : String)
    (hl : loader path = Except.ok text) (hs : pyStrip text ≠ "")
    (hx : ex.name text = Except.error e ∨ ex.email text = Except.error e ∨
          ex.phone text = Except.error e ∨ ex.skills text = Except.error e ∨
          ex.experience text = Except.error e ∨ ex.education text = Except.error e ∨
          ex.work_history text = Except.error e ∨ ex.location text = Except.error e ∨
          ex.salary_expectation text = Except.error e) :
    parse_resume loader ex path = create_empty_result := by
  unfold parse_resume parse_resume_attempt
  rw [hl]
  dsimp only
  rw [if_neg hs]
  cases h1 : ex.name text with
  | error e1 => rfl
  | ok v1 =>
  cases h2 : ex.email text with
  | error e2 => rfl
  | ok v2 =>
  cases h3 : ex.phone text with
  | error e3 => rfl
  | ok v3 =>
  cases h4 : ex.skills text with
  | error e4 => rfl
  | ok v4 =>
  cases h5 : ex.experience text with
  | error e5 => rfl
  | ok v5 =>
  cases h6 : ex.education text with
  | error e6 => rfl
  | ok v6 =>
  cases h7 : ex.work_history text with
  | error e7 => rfl
  | ok v7 =>
  cases h8 : ex.location text with
  | error e8 => rfl
  | ok v8 =>
  cases h9 : ex.salary_expectation text with
  | error e9 => rfl
  | ok v9 =>
    rcases hx with h | h | h | h | h | h | h | h | h
    · rw [h1] at h; cases h
    · rw [h2] at h; cases h
    · rw [h3] at h; cases h
    · rw [h4] at h; cases h
    · rw [h5] at h; cases h
    · rw [h6] at h; cases h
    · rw [h7] at h; cases h
    · rw [h8] at h; cases h
    · rw [h9] at h; cases h

/-- Witness for the amended C8: a raising phone extractor alone empties
the whole profile. -/
theorem extractor_failure_amended_witness :
    parse_resume okLoader badPhoneEx ("resume.pdf") = create_empty_result :=
  extractor_failure_amended okLoader badPhoneEx ("resume.pdf")
    ("Jane Doe jane@site.net") ("phone extractor raised") rfl (by decide)
    (Or.inr (Or.inr (Or.inl rfl)))

/-- Loader result on any extension other than .pdf/.docx/.doc: the .txt
branch and the fallback branch both evaluate the undefined name aiofiles,
and the resulting NameError is swallowed into the empty string. -/
theorem extract_unknown_ext (env : LoaderEnv) (path : String)
    (h : pyLower (splitext path).2 ∉ ([".pdf", ".docx", ".doc"] : List String)) :
    extract_text_from_file env path = "" := by
  have h1 : pyLower (splitext path).2 ≠ ".pdf" := fun hc => h (by rw [hc]; simp)
  have h2 : pyLower (splitext path).2 ≠ ".docx" := fun hc => h (by rw [hc]; simp)
  have h3 : pyLower (splitext path).2 ≠ ".doc" := fun hc => h (by rw [hc]; simp)
  unfold extract_text_from_file
  dsimp only
  rw [if_neg h1, if_neg (by rintro (hc | hc); exacts [h2 hc, h3 hc])]
  by_cases ht : pyLower (splitext path).2 = ".txt"
  · rw [if_pos ht]
  · rw [if_neg ht]

/-- Claim C10: for every path whose lowercased extension is .txt or
unrecognized, text extraction returns the empty string (the aiofiles read
always raises NameError, which is swallowed), and consequently
parse_resume on such a file returns the canonical empty profile whatever
the file contains and whatever the extractors would do. -/
theorem txt_extension_empty_profile (env : LoaderEnv) (ex : Extractors) (path : String)
    (h : pyLower (splitext path).2 ∉ ([".pdf", ".docx", ".doc"] : List String)) :
    extract_text_from_file env path = "" ∧
    parse_resume_file env ex path = create_empty_result := by
  have hext := extract_unknown_ext env path h
  refine ⟨hext, ?_⟩
  unfold parse_resume_file parse_resume parse_resume_attempt
  dsimp only
  rw [hext]
  dsimp only
  rw [if_pos (show pyStrip "" = "" from rfl)]

/-- Witness for C10 on a .txt path. -/
theorem txt_extension_empty_profile_witness :
    extract_text_from_file noPdfEnv ("resume.txt") = "" ∧
    parse_resume_file noPdfEnv EX0 ("resume.txt") = create_empty_result :=
  txt_extension_empty_profile noPdfEnv EX0 ("resume.txt") (by decide)

/-- Counterexample to claim C4 as stated: with the PDF library missing,
the loader returns the fixed placeholder message, not the empty string. -/
theorem loader_dependency_message_counterexample :
    extract_text_from_file noPdfEnv ("resume.pdf") =
      "PDF parsing not available. Please install PyPDF2." ∧
    ("PDF parsing not available. Please install PyPDF2." : String) ≠ "" :=
  ⟨by decide, by decide⟩

/-- Claim C4 amended: the loader is total; a raising PDF or DOCX read
(corrupt file, unreadable bytes) and the .txt / unknown-extension branches
all yield exactly the empty string, but a missing optional parsing
dependency yields a fixed non-empty placeholder message instead. -/
theorem loader_failure_amended (env : LoaderEnv) (path e : String) :
    (pyLower (splitext path).2 = ".pdf" → env.pdf_parsing_available = true →
       env.pdfPages path = Except.error e → extract_text_from_file env path = "") ∧
    (pyLower (splitext path).2 = ".docx" ∨ pyLower (splitext path).2 = ".doc" →
       env.docx_parsing_available = true → env.docxDoc path = Except.error e →
       extract_text_from_file env path = "") ∧
    (pyLower (splitext path).2 ∉ ([".pdf", ".docx", ".doc"] : List String) →
       extract_text_from_file env path = "") ∧
    (pyLower (splitext path).2 = ".pdf" → env.pdf_parsing_available = false →
       extract_text_from_file env path =
         "PDF parsing not available. Please install PyPDF2.") ∧
    (pyLower (splitext path).2 = ".docx" ∨ pyLower (splitext path).2 = ".doc" →
       env.docx_parsing_available = false →
       extract_text_from_file env path =
         "DOCX parsing not available. Please install python-docx.") := by
  refine ⟨?_, ?_, ?_, ?_, ?_⟩
  · intro hx hav herr
    unfold extract_text_from_file
    dsimp only
    rw [if_pos hx]
    unfold extract_pdf_text
    rw [hav, if_neg (by simp), herr]
  · intro hx hav herr
    unfold extract_text_from_file
    dsimp only
    rw [if_neg ?_, if_pos hx]
    · unfold extract_docx_text
      rw [hav, if_neg (by simp), herr]
    · rcases hx with hc | hc <;> rw [hc] <;> decide
  · exact extract_unknown_ext env path
  · intro hx hav
    unfold extract_text_from_file
    dsimp only
    rw [if_pos hx]
    unfold extract_pdf_text
    rw [hav, if_pos rfl]
  · intro hx hav
    unfold extract_text_from_file
    dsimp only
    rw [if_neg ?_, if_pos hx]
    · unfold extract_docx_text
      rw [hav, if_pos rfl]
    · rcases hx with hc | hc <;> rw [hc] <;> decide

/-- Witness for the amended C4: corrupt reads yield the empty string. -/
theorem loader_failure_amended_witness :
    extract_text_from_file errEnv ("cv.pdf") = "" ∧
    extract_text_from_file errEnv ("cv.docx") = "" :=
  ⟨(loader_failure_amended errEnv ("cv.pdf") ("corrupt file")).1 (by decide) rfl rfl,
   (loader_failure_amended errEnv ("cv.docx") ("corrupt file")).2.1 (Or.inl (by decide)) rfl rfl⟩

/-- A job closed from a description-free open entry carries at most three
description lines. -/
theorem closeJob_desc (j : Job) (desc : List String) (hj : j.description = none) :
    ∀ d, (closeJob j desc).description = some d → d.length ≤ 3 := by
  intro d hd
  unfold closeJob at hd
  split at hd
  · simp at hd
    rw [← hd]
    exact List.length_take_le 3 desc
  · rw [hj] at hd
    cases hd

/-- Invariant of the work-history line loop: every emitted job satisfies
the three-line description bound. -/
theorem whLoop_desc (jm : String → Option (String × String × String)) :
    ∀ (lines : List String) (cur : Option Job) (desc : List String) (acc : List Job),
      (∀ j ∈ acc, ∀ d, j.description = some d → d.length ≤ 3) →
      (∀ j, cur = some j → j.description = none) →
      ∀ j ∈ whLoop jm lines cur desc acc, ∀ d, j.description = some d → d.length ≤ 3 := by
  intro lines
  induction lines with
  | nil =>
    intro cur desc acc hacc hcur j hj d hd
    cases cur with
    | none => exact hacc j (by simpa [whLoop] using hj) d hd
    | some jc =>
      simp only [whLoop] at hj
      rcases List.mem_append.mp hj with h | h
      · exact hacc j h d hd
      · simp at h
        subst h
        exact closeJob_desc jc desc (hcur jc rfl) d hd
  | cons l ls ih =>
    intro cur desc acc hacc hcur j hj d hd
    simp only [whLoop] at hj
    by_cases h1 : pyStrip l = ""
    · rw [if_pos h1] at hj
      exact ih cur desc acc hacc hcur j hj d hd
    · rw [if_neg h1] at hj
      rcases hm : jm (pyStrip l) with _ | ⟨t, c, dt⟩
      · rw [hm] at hj
        dsimp only at hj
        split at hj
        · split at hj
          · exact ih _ _ _ hacc hcur j hj d hd
          · split at hj
            · exact ih _ _ _ hacc hcur j hj d hd
            · exact ih _ _ _ hacc hcur j hj d hd
        · exact ih _ _ _ hacc hcur j hj d hd
      · rw [hm] at hj
        dsimp only at hj
        cases cur with
        | none =>
          exact ih _ _ _ hacc (by intro j' hh; cases hh; rfl) j hj d hd
        | some jc =>
          refine ih _ _ _ ?_ (by intro j' hh; cases hh; rfl) j hj d hd
          intro j' hj' d' hd'
          rcases List.mem_append.mp hj' with h | h
          · exact hacc j' h d' hd'
          · simp at h
            subst h
            exact closeJob_desc jc desc (hcur jc rfl) d' hd'

/-- Claim C9: the work-history extractor returns at most five entries, and
every entry that has a description has at most three description lines;
this holds for every section the regex engine can report and every
behaviour of the job-header matcher. -/
theorem work_history_bounds (findSection : String → Option String)
    (jobMatch : String → Option (String × String × String)) (text : String) :
    (extract_work_history findSection jobMatch text).length ≤ 5 ∧
    ∀ j ∈ extract_work_history findSection jobMatch text,
      ∀ d, j.description = some d → d.length ≤ 3 := by
  constructor
  · unfold extract_work_history
    cases findSection text with
    | none => simp
    | some expText => exact List.length_take_le 5 _
  · intro j hj d hd
    unfold extract_work_history at hj
    cases hfs : findSection text with
    | none =>
      rw [hfs] at hj
      cases hj
    | some expText =>
      rw [hfs] at hj
      dsimp only at hj
      have hj2 := List.mem_of_mem_take hj
      exact whLoop_desc jobMatch _ none [] []
        (by intro j' hj'; cases hj') (by intro j' hj'; cases hj') j hj2 d hd

/-- Witness for C9 with one matched header and one bullet line. -/
theorem work_history_bounds_witness :
    (extract_work_history whFs whJm ("Dev | Acme\n- shipped the main service")).length ≤ 5 ∧
    (["shipped the main service"] : List String).length ≤ 3 :=
  ⟨(work_history_bounds whFs whJm ("Dev | Acme\n- shipped the main service")).1,
   (work_history_bounds whFs whJm ("Dev | Acme\n- shipped the main service")).2
     ⟨"Dev", "Acme", "", some ["shipped the main service"]⟩ (by decide)
     (["shipped the main service"]) rfl⟩
